import Mathlib

/-!
Shallow embedding of the okx-grid-bot trading core (grid ledger, risk
controller, retry policy, sentiment aggregation) and proofs checking the
natural-language specification against it.  Numeric values computed by the
Python source with `float` are modelled as exact rationals; Python's
`round(x, n)` (banker's rounding) is modelled by `roundHalfEven`, and
Python's `int()` truncation by `pyInt`.  Booleans produced by comparisons
are written with `if _ then true else false` so that concrete states can be
evaluated by `simp`/`norm_num`.
-/

namespace GridBot

/-- Python `round` to an integer: round half to even (banker's rounding). -/
def roundHalfEven (q : ℚ) : ℤ :=
  if q - ⌊q⌋ < 1/2 then ⌊q⌋
  else if q - ⌊q⌋ = 1/2 then (if ⌊q⌋ % 2 = 0 then ⌊q⌋ else ⌊q⌋ + 1)
  else ⌊q⌋ + 1

/-- Python `round(x, 2)`. -/
def round2 (q : ℚ) : ℚ := (roundHalfEven (100 * q) : ℚ) / 100

/-- Python `round(x, 1)`. -/
def round1 (q : ℚ) : ℚ := (roundHalfEven (10 * q) : ℚ) / 10

/-- Python `int()` applied to a float: truncation toward zero. -/
def pyInt (q : ℚ) : ℤ := if 0 ≤ q then ⌊q⌋ else -⌊-q⌋

/-- config.TRADING_FEE_RATE (0.1 percent per leg). -/
def TRADING_FEE_RATE : ℚ := 1/1000

/-- config.MIN_PROFIT_RATE. -/
def MIN_PROFIT_RATE : ℚ := 3/1000

/-- config.MAX_POSITION_GRIDS. -/
def MAX_POSITION_GRIDS : ℕ := 10

/-- One grid level (dataclass GridLevel in grid_strategy.py and smart_grid.py). -/
structure GridLevel where
  index : ℕ
  price : ℚ
  is_bought : Bool
  buy_price : ℚ
  buy_amount : ℚ
  buy_time : String
  order_id : String
deriving Repr, DecidableEq

/-- Placeholder level used for out-of-range list reads (never hit on the
paths the source exercises, where indices are in bounds). -/
def noLevel : GridLevel := ⟨0, 0, false, 0, 0, "", ""⟩

/-- GridStrategy._init_grids / SmartGridStrategy._init_grids: `count + 1`
levels at `lower + i * spacing`, each price passed through `round(price, 2)`. -/
def initGrids (lower upper : ℚ) (count : ℕ) : List GridLevel :=
  (List.range (count + 1)).map fun i =>
    { index := i
      price := round2 (lower + i * ((upper - lower) / count))
      is_bought := false
      buy_price := 0
      buy_amount := 0
      buy_time := ""
      order_id := "" }

/-- SmartGridStrategy._init_grids guards `upper <= lower` and leaves the
(initially empty) grid list unchanged in that case. -/
def smartInitGrids (lower upper : ℚ) (count : ℕ) : List GridLevel :=
  if upper ≤ lower then [] else initGrids lower upper count

/-- GridStrategy.get_grid_index / SmartGridStrategy.get_grid_index. -/
def getGridIndex (lower upper spacing : ℚ) (count : ℕ) (price : ℚ) : ℤ :=
  if price ≤ lower then 0
  else if price ≥ upper then count
  else min (pyInt ((price - lower) / spacing)) count

/-! ### Smart grid strategy state (okx_grid_bot/strategy/smart_grid.py) -/

/-- Mutable fields of SmartGridStrategy relevant to trading. -/
structure SmartGridState where
  upper_price : ℚ
  lower_price : ℚ
  grid_count : ℕ
  amount_per_grid : ℚ
  stop_loss_price : ℚ
  grid_spacing : ℚ
  grids : List GridLevel
  total_profit : ℚ
  trade_count : ℕ
  consecutive_stop_loss_count : ℕ
  max_consecutive_stop_loss : ℕ
  is_halted : Bool
  halt_reason : String
deriving Repr, DecidableEq

/-- Model of the halt message formatted in check_and_trade (the exact
formatted text is irrelevant to the claims; only emptiness vs. presence is). -/
def haltReasonMsg : String := "consecutive stop loss limit reached"

/-- Result of one api.get_order_detail call (the keys the strategy reads;
`avgPx` is `none` when the key is absent, in which case the code falls back
to the current price). -/
structure OrderDetail where
  fillSz : ℚ
  avgPx : Option ℚ
  state : String

/-- Exchange responses during one tick: the risk verdict consumed from the
risk controller, and the outcome of each api call the tick may make, indexed
by the grid level it concerns. -/
structure TickEnv where
  riskShouldTrade : Bool
  buyOrder : ℕ → Option String
  orderDetail : ℕ → Option OrderDetail
  sellOrder : ℕ → Bool
  now : String

/-- Action recorded in the result dict of check_and_trade. -/
inductive TradeAction
  | noSignal
  | riskStop
  | stopLoss
  | buy
  | sell
deriving Repr, DecidableEq

/-- Result dict of check_and_trade (message text omitted). -/
structure TradeResult where
  action : TradeAction
  success : Bool
deriving Repr, DecidableEq

/-- Outcome of a trade-executing helper: success flag, new state and the list
of ledger documents written by _save_orders during the call. -/
structure ExecOutcome where
  ok : Bool
  state : SmartGridState
  savedDocs : List SmartGridState

/-- `sum(1 for g in grids if g.is_bought)`. -/
def positionCount (grids : List GridLevel) : ℕ :=
  (grids.filter fun g => g.is_bought).length

/-- A level reset to empty (sell execution, both strategies). -/
def resetLevel (g : GridLevel) : GridLevel :=
  { g with is_bought := false, buy_price := 0, buy_amount := 0,
           buy_time := "", order_id := "" }

/-- A level filled by a buy. -/
def fillLevel (g : GridLevel) (px qty : ℚ) (now ordId : String) : GridLevel :=
  { g with is_bought := true, buy_price := px, buy_amount := qty,
           buy_time := now, order_id := ordId }

/-- SmartGridStrategy._execute_buy for the level at list position `i`.
Mirrors the source: place a market buy, query the order detail, fill the
level from the detail when `filled` (or `partially_filled` with a positive
fill), fall back to an estimated quantity when the detail query fails;
_save_orders runs before `trade_count` is incremented. -/
def executeBuy (env : TickEnv) (s : SmartGridState) (i : ℕ) (price : ℚ) :
    ExecOutcome :=
  let g := s.grids.getD i noLevel
  match env.buyOrder i with
  | none => ⟨false, s, []⟩
  | some ordId =>
    match env.orderDetail i with
    | some d =>
      if d.state = "filled" then
        let g1 := fillLevel g (d.avgPx.getD price) d.fillSz env.now ordId
        let s1 := { s with grids := s.grids.set i g1 }
        ⟨true, { s1 with trade_count := s1.trade_count + 1 }, [s1]⟩
      else if d.state = "partially_filled" then
        if 0 < d.fillSz then
          let g1 := fillLevel g (d.avgPx.getD price) d.fillSz env.now ordId
          let s1 := { s with grids := s.grids.set i g1 }
          ⟨true, { s1 with trade_count := s1.trade_count + 1 }, [s1]⟩
        else ⟨false, s, []⟩
      else ⟨false, s, []⟩
    | none =>
      let estimated := s.amount_per_grid / price
      let g1 := fillLevel g price estimated env.now ordId
      let s1 := { s with grids := s.grids.set i g1 }
      ⟨true, { s1 with trade_count := s1.trade_count + 1 }, [s1]⟩

/-- Net profit of a sell at `price` of the position held at level `g`
(SmartGridStrategy._execute_sell, P2-1: gross minus both fee legs). -/
def netProfit (g : GridLevel) (price : ℚ) : ℚ :=
  (g.buy_amount * price - g.buy_amount * g.buy_price)
    - g.buy_amount * g.buy_price * TRADING_FEE_RATE
    - g.buy_amount * price * TRADING_FEE_RATE

/-- SmartGridStrategy._execute_sell for the level at list position `i`:
accumulate the net profit, reset the consecutive-stop-loss counter when the
net profit is positive, reset the level, save, increment trade_count. -/
def executeSell (env : TickEnv) (s : SmartGridState) (i : ℕ) (price : ℚ) :
    ExecOutcome :=
  let g := s.grids.getD i noLevel
  if env.sellOrder i then
    let np := netProfit g price
    let s1 := { s with
      total_profit := s.total_profit + np
      consecutive_stop_loss_count :=
        if 0 < np then 0 else s.consecutive_stop_loss_count
      grids := s.grids.set i (resetLevel g) }
    ⟨true, { s1 with trade_count := s1.trade_count + 1 }, [s1]⟩
  else ⟨false, s, []⟩

/-- Buy loop of check_and_trade over the descending index list
`[i0, i0-1, ..., 0]`: at the first empty level, return without trading when
the position cap is reached, otherwise try to buy there and move on past a
failed order.  `none` means the loop fell through to the sell scan. -/
def buyScan (env : TickEnv) (price : ℚ) (s : SmartGridState) :
    List ℕ → Option (TradeResult × ExecOutcome)
  | [] => none
  | i :: rest =>
    let g := s.grids.getD i noLevel
    if g.is_bought then buyScan env price s rest
    else if MAX_POSITION_GRIDS ≤ positionCount s.grids then
      some (⟨.noSignal, false⟩, ⟨false, s, []⟩)
    else
      let out := executeBuy env s i price
      if out.ok then some (⟨.buy, true⟩, out)
      else buyScan env price s rest

/-- Sell loop of check_and_trade over the ascending index list
`[i0+1, ..., len-1]`: sell the first held level whose trigger price and
minimum-profit price are both reached (P2-2). -/
def sellScan (env : TickEnv) (price : ℚ) (s : SmartGridState) :
    List ℕ → Option (TradeResult × ExecOutcome)
  | [] => none
  | i :: rest =>
    let g := s.grids.getD i noLevel
    if g.is_bought then
      if g.price ≤ price ∧ g.buy_price * (1 + MIN_PROFIT_RATE) ≤ price then
        let out := executeSell env s i price
        if out.ok then some (⟨.sell, true⟩, out)
        else sellScan env price s rest
      else sellScan env price s rest
    else sellScan env price s rest

/-- SmartGridStrategy.check_and_trade: halted guard, risk gate, stop-loss
counting with halt at the threshold (P0-1; note the mutated state is not
saved on this path), range guards, then the buy and sell scans. -/
def checkAndTrade (env : TickEnv) (price : ℚ) (s : SmartGridState) :
    TradeResult × ExecOutcome :=
  if s.is_halted then (⟨.noSignal, false⟩, ⟨false, s, []⟩)
  else if env.riskShouldTrade = false then (⟨.riskStop, false⟩, ⟨false, s, []⟩)
  else if price ≤ s.stop_loss_price then
    let c := s.consecutive_stop_loss_count + 1
    let s1 := { s with consecutive_stop_loss_count := c }
    let s2 := if s.max_consecutive_stop_loss ≤ c then
        { s1 with is_halted := true, halt_reason := haltReasonMsg }
      else s1
    (⟨.stopLoss, false⟩, ⟨false, s2, []⟩)
  else if s.upper_price < price then (⟨.noSignal, false⟩, ⟨false, s, []⟩)
  else if price < s.lower_price then (⟨.noSignal, false⟩, ⟨false, s, []⟩)
  else
    let i0 := (getGridIndex s.lower_price s.upper_price s.grid_spacing
      s.grid_count price).toNat
    match buyScan env price s ((List.range (i0 + 1)).reverse) with
    | some r => r
    | none =>
      match sellScan env price s ((List.range s.grids.length).drop (i0 + 1)) with
      | some r => r
      | none => (⟨.noSignal, false⟩, ⟨false, s, []⟩)

/-- SmartGridStrategy.resume_trading (P0-1 manual resume). -/
def resumeTrading (s : SmartGridState) : SmartGridState :=
  { s with is_halted := false, halt_reason := "",
           consecutive_stop_loss_count := 0 }

/-- A tick environment with the risk gate open, every buy order rejected and
every sell order accepted (used to exercise concrete scenarios). -/
def sampleEnv : TickEnv :=
  ⟨true, fun _ => none, fun _ => none, fun _ => true, "t"⟩

/-- A strategy state two consecutive stop-losses deep, with the default
threshold 3, configured on the 2900-3200 range with stop-loss at 2800. -/
def twoStopLossState : SmartGridState :=
  { upper_price := 3200, lower_price := 2900, grid_count := 10,
    amount_per_grid := 100, stop_loss_price := 2800, grid_spacing := 30,
    grids := [], total_profit := 0, trade_count := 0,
    consecutive_stop_loss_count := 2, max_consecutive_stop_loss := 3,
    is_halted := false, halt_reason := "" }

/-! ### Legacy strategy (grid_strategy.py) -/

/-- Mutable fields of the legacy GridStrategy. -/
structure LegacyState where
  upper_price : ℚ
  lower_price : ℚ
  grid_count : ℕ
  amount_per_grid : ℚ
  stop_loss_price : ℚ
  grid_spacing : ℚ
  grids : List GridLevel
  total_profit : ℚ
  trade_count : ℕ
deriving Repr, DecidableEq

/-- GridStrategy._execute_sell: profit is gross `qty * (sell - buy)` with no
fee deduction; the level is reset and trade_count incremented. -/
def legacyExecuteSell (orderOk : Bool) (s : LegacyState) (i : ℕ) (price : ℚ) :
    Bool × LegacyState :=
  let g := s.grids.getD i noLevel
  if orderOk then
    let profit := g.buy_amount * price - g.buy_amount * g.buy_price
    (true, { s with
      total_profit := s.total_profit + profit
      grids := s.grids.set i (resetLevel g)
      trade_count := s.trade_count + 1 })
  else (false, s)

/-- One level record of the persisted orders document. -/
structure SnapLevel where
  index : ℕ
  is_bought : Bool
  buy_price : ℚ
  buy_amount : ℚ
  buy_time : String
  order_id : String
deriving Repr, DecidableEq

/-- The persisted orders document (grid_strategy.py `orders.json`). -/
structure Snapshot where
  grids : List SnapLevel
  total_profit : ℚ
  trade_count : ℕ
deriving Repr, DecidableEq

/-- GridStrategy._load_orders, one record: `if 0 <= idx < len(self.grids)`
copy the five occupancy/fill fields onto the level, keeping index and
trigger price. -/
def applySnap (grids : List GridLevel) (e : SnapLevel) : List GridLevel :=
  if e.index < grids.length then
    let g := grids.getD e.index noLevel
    grids.set e.index { g with
      is_bought := e.is_bought
      buy_price := e.buy_price
      buy_amount := e.buy_amount
      buy_time := e.buy_time
      order_id := e.order_id }
  else grids

/-- GridStrategy.__init__: compute spacing, build the grids, replay the
persisted snapshot when the orders file exists, then (lines 52-53)
unconditionally reset `total_profit` and `trade_count` to zero. -/
def gridStrategyInit (lower upper : ℚ) (count : ℕ) (amount stopLoss : ℚ)
    (snap : Option Snapshot) : LegacyState :=
  let spacing := (upper - lower) / count
  let grids0 := initGrids lower upper count
  let loaded := match snap with
    | none => (grids0, (0 : ℚ), (0 : ℕ))
    | some sn => (sn.grids.foldl applySnap grids0, sn.total_profit, sn.trade_count)
  { upper_price := upper
    lower_price := lower
    grid_count := count
    amount_per_grid := amount
    stop_loss_price := stopLoss
    grid_spacing := spacing
    grids := loaded.1
    total_profit := 0
    trade_count := 0 }

/-! ### Risk controller (risk/risk_control.py) -/

/-- One composed pause-reason entry (models the formatted strings joined by
"; " in get_risk_assessment; a position-limit breach contributes none). -/
inductive PauseReason
  | drawdownBreach (pct : ℚ)
  | dailyLossBreach (amt : ℚ)
  | consecutiveLossBreach (n : ℕ)
  | priceAnomaly (pct : ℚ)
deriving Repr, DecidableEq

/-- RiskController state: limits set in __init__ and the tracked values. -/
structure RiskState where
  max_drawdown_percent : ℚ
  daily_loss_limit : ℚ
  max_position_value : ℚ
  price_drop_alert : ℚ
  price_spike_alert : ℚ
  consecutive_loss_limit : ℕ
  initial_value : ℚ
  peak_value : ℚ
  daily_pnl : ℚ
  consecutive_losses : ℕ
  last_price : ℚ
  trading_paused : Bool
  pause_reason : List PauseReason
  price_history : List ℚ
deriving Repr, DecidableEq

/-- RiskController.__init__ defaults with all tracked values zeroed. -/
def initialRiskState : RiskState :=
  { max_drawdown_percent := 10
    daily_loss_limit := 50
    max_position_value := 500
    price_drop_alert := 5
    price_spike_alert := 10
    consecutive_loss_limit := 3
    initial_value := 0
    peak_value := 0
    daily_pnl := 0
    consecutive_losses := 0
    last_price := 0
    trading_paused := false
    pause_reason := []
    price_history := [] }

/-- Result dict of check_drawdown (the fields the assessment reads;
`drawdown_percent` is stored rounded to 2 decimals as in the source). -/
structure DrawdownCheck where
  exceeded : Bool
  drawdown_percent : ℚ
deriving Repr, DecidableEq

/-- RiskController.check_drawdown. -/
def checkDrawdown (s : RiskState) (currentValue : ℚ) : DrawdownCheck :=
  if s.peak_value ≤ 0 then ⟨false, 0⟩
  else
    let ddPct := (s.peak_value - currentValue) / s.peak_value * 100
    ⟨if s.max_drawdown_percent < ddPct then true else false, round2 ddPct⟩

/-- RiskController.check_daily_loss (`exceeded`). -/
def checkDailyLoss (s : RiskState) : Bool :=
  if s.daily_pnl < -s.daily_loss_limit then true else false

/-- RiskController.check_consecutive_losses (`exceeded`). -/
def checkConsecutiveLosses (s : RiskState) : Bool :=
  if s.consecutive_loss_limit ≤ s.consecutive_losses then true else false

/-- Result dict of check_price_anomaly. -/
structure AnomalyCheck where
  anomaly_detected : Bool
  typ : Option String
  change_percent : ℚ
deriving Repr, DecidableEq

/-- RiskController.check_price_anomaly: empty history short-circuits; a
tick-over-tick spike check against `last_price`, then a 5-sample rapid-drop
check that overwrites the record when it fires. -/
def checkPriceAnomaly (s : RiskState) (currentPrice : ℚ) : AnomalyCheck :=
  if s.price_history = [] then ⟨false, none, 0⟩
  else
    let r1 :=
      if 0 < s.last_price then
        let ch := (currentPrice - s.last_price) / s.last_price * 100
        if s.price_spike_alert < |ch| then
          AnomalyCheck.mk true (some "spike") (round2 ch)
        else ⟨false, none, 0⟩
      else ⟨false, none, 0⟩
    if 5 ≤ s.price_history.length then
      let old := s.price_history.getD (s.price_history.length - 5) 0
      let ch := (currentPrice - old) / old * 100
      if ch < -s.price_drop_alert then
        AnomalyCheck.mk true (some "rapid_drop") (round2 ch)
      else r1
    else r1

/-- RiskController.check_position_limit (`exceeded`). -/
def checkPositionLimit (s : RiskState) (positionValue : ℚ) : Bool :=
  if s.max_position_value < positionValue then true else false

/-- RiskController.record_price: append to the bounded history (last 100)
and update `last_price`. -/
def recordPrice (s : RiskState) (price : ℚ) : RiskState :=
  let h := s.price_history ++ [price]
  { s with
    price_history := if 100 < h.length then h.drop (h.length - 100) else h
    last_price := price }

/-- Risk tiers (RiskLevel enum). -/
inductive RiskLevel
  | low
  | medium
  | high
  | critical
deriving Repr, DecidableEq

/-- Suggested actions (RiskAction enum). -/
inductive RiskAction
  | continueTrading
  | reducePosition
  | pauseBuy
  | pauseAll
deriving Repr, DecidableEq

/-- Assessment result of get_risk_assessment (the fields the claims read). -/
structure Assessment where
  risk_level : RiskLevel
  risk_score : ℕ
  action : RiskAction
  should_trade : Bool
deriving Repr, DecidableEq

/-- Composed pause reason (get_risk_assessment lines 373-383): drawdown,
daily-loss, consecutive-loss and anomaly breaches are named; a
position-limit breach is not. -/
def composeReasons (dd : DrawdownCheck) (dl cc : Bool) (pa : AnomalyCheck)
    (s : RiskState) : List PauseReason :=
  (if dd.exceeded then [PauseReason.drawdownBreach dd.drawdown_percent] else [])
  ++ (if dl then [PauseReason.dailyLossBreach |round2 s.daily_pnl|] else [])
  ++ (if cc then [PauseReason.consecutiveLossBreach s.consecutive_losses] else [])
  ++ (if pa.anomaly_detected then [PauseReason.priceAnomaly pa.change_percent] else [])

/-- RiskController.get_risk_assessment: run the five checks, record the
price, compute the weighted score, derive tier/action/should_trade, and on
score >= 40 set the sticky paused flag with the composed reason. -/
def getRiskAssessment (s : RiskState) (currentValue currentPrice positionValue : ℚ) :
    Assessment × RiskState :=
  let dd := checkDrawdown s currentValue
  let dl := checkDailyLoss s
  let cc := checkConsecutiveLosses s
  let pa := checkPriceAnomaly s currentPrice
  let pl := checkPositionLimit s positionValue
  let s1 := recordPrice s currentPrice
  let score : ℕ :=
    (if dd.exceeded then 30
     else if s.max_drawdown_percent * (7/10) < dd.drawdown_percent then 15
     else 0)
    + (if dl then 25
       else if s.daily_pnl < -(s.daily_loss_limit * (7/10)) then 10
       else 0)
    + (if cc then 20 else 0)
    + (if pa.anomaly_detected then 25 else 0)
    + (if pl then 15 else 0)
  let level : RiskLevel :=
    if 60 ≤ score then .critical
    else if 40 ≤ score then .high
    else if 20 ≤ score then .medium
    else .low
  let action : RiskAction :=
    if 60 ≤ score then .pauseAll
    else if 40 ≤ score then .pauseBuy
    else if 20 ≤ score then .reducePosition
    else .continueTrading
  let s2 :=
    if 40 ≤ score then
      { s1 with trading_paused := true,
                pause_reason := composeReasons dd dl cc pa s }
    else s1
  (⟨level, score, action, if score < 40 then true else false⟩, s2)

/-- RiskController.resume_trading. -/
def riskResumeTrading (s : RiskState) : RiskState :=
  { s with trading_paused := false, pause_reason := [],
           consecutive_losses := 0 }

/-- A controller initialized with value 1000 (peak 1000), all else healthy. -/
def peak1000RiskState : RiskState :=
  { initialRiskState with initial_value := 1000, peak_value := 1000 }

/-- A controller at peak 1000 that has lost 60 USDT today. -/
def breachRiskState : RiskState :=
  { peak1000RiskState with daily_pnl := -60 }

/-- Risk score as the specification words it (claim C1): the +15 drawdown
tier compares the exact drawdown percentage, not the rounded one, against
70 percent of the limit; all other tiers as in the source. -/
def specRiskScore (s : RiskState) (currentValue currentPrice positionValue : ℚ) : ℕ :=
  let ddPct := if s.peak_value ≤ 0 then 0
    else (s.peak_value - currentValue) / s.peak_value * 100
  (if s.max_drawdown_percent < ddPct then 30
   else if s.max_drawdown_percent * (7/10) < ddPct then 15
   else 0)
  + (if s.daily_pnl < -s.daily_loss_limit then 25
     else if s.daily_pnl < -(s.daily_loss_limit * (7/10)) then 10
     else 0)
  + (if checkConsecutiveLosses s then 20 else 0)
  + (if (checkPriceAnomaly s currentPrice).anomaly_detected then 25 else 0)
  + (if checkPositionLimit s positionValue then 15 else 0)

/-! ### Retry policy (okx_grid_bot/utils/retry.py) -/

/-- Transient (retryable) error categories of DEFAULT_RETRYABLE_EXCEPTIONS. -/
inductive TransientErr
  | network
  | rateLimit (retry_after : ℚ)
deriving Repr, DecidableEq

/-- Outcome of one attempt of the wrapped function. -/
inductive CallOutcome
  | ok (v : ℕ)
  | transient (e : TransientErr)
  | fatal
deriving Repr, DecidableEq

/-- Surface of the whole retry-wrapped call. -/
inductive RetryOutcome
  | success (v : ℕ)
  | raisedTransient (e : TransientErr)
  | fatalRaised
  | noAttempt
deriving Repr, DecidableEq

/-- What a run of the retry wrapper did: its outcome, the waits slept
between attempts, and how many times the wrapped function was called. -/
structure RetryTrace where
  outcome : RetryOutcome
  waits : List ℚ
  calls : ℕ
deriving Repr, DecidableEq

/-- Wait before the next attempt (retry.py lines 74-78): rate-limit errors
wait `max(current_delay, retry_after)`; other transient errors wait the
current backoff delay. -/
def waitFor (currentDelay : ℚ) : TransientErr → ℚ
  | .network => currentDelay
  | .rateLimit ra => max currentDelay ra

/-- The retry loop: `left` counts the attempts still allowed including the
current one; `attempt` is the 1-based attempt number; after each wait the
delay is multiplied by `backoff`. -/
def retryGo (f : ℕ → CallOutcome) (backoff : ℚ) :
    ℕ → ℕ → ℚ → List ℚ → RetryTrace
  | 0, attempt, _, waits => ⟨.noAttempt, waits, attempt - 1⟩
  | left + 1, attempt, delay, waits =>
    match f attempt with
    | .ok v => ⟨.success v, waits, attempt⟩
    | .fatal => ⟨.fatalRaised, waits, attempt⟩
    | .transient e =>
      if 0 < left then
        retryGo f backoff left (attempt + 1) (delay * backoff)
          (waits ++ [waitFor delay e])
      else ⟨.raisedTransient e, waits, attempt⟩

/-- The `retry` decorator applied with (max_attempts, delay, backoff) to a
call whose attempt outcomes are given by `f`. -/
def retryRun (maxAttempts : ℕ) (delay backoff : ℚ) (f : ℕ → CallOutcome) :
    RetryTrace :=
  retryGo f backoff maxAttempts 1 delay []

/-! ### Sentiment aggregation (data/external_data.py) and environment score
(analysis/macro_analysis.py) -/

/-- The sentiment fields get_all_sentiment_data builds: each source is
`none` when its fetch failed.  Only the fields the scoring reads are kept
(`market_cap_change` is the 24h market-cap change percentage). -/
structure SentimentData where
  fear_greed : Option ℕ
  btc_dominance : Option ℚ
  market_cap_change : Option ℚ
  funding_rate : Option ℚ
  long_short_ratio : Option ℚ
  sentiment_score : ℚ
deriving Repr, DecidableEq

/-- Sentiment sub-score of a funding rate (external_data.py lines 310-318). -/
def fundingScore (rate : ℚ) : ℚ :=
  if 1/1000 < rate then 70
  else if 0 < rate then 55
  else if -(1/1000) < rate then 45
  else 30

/-- Sentiment sub-score of a long/short ratio (line 323). -/
def lsRatioScore (ratio : ℚ) : ℚ :=
  min 100 (max 0 ((ratio - 1/2) / (3/2) * 50 + 50))

/-- Sentiment sub-score of a market-cap change (line 329). -/
def mcapScore (change : ℚ) : ℚ := min 100 (max 0 (change * 5 + 50))

/-- ExternalData.get_all_sentiment_data given the outcome of each fetch:
collect the available sub-scores and average them (rounded to 1 decimal);
with no source available the default 50 stands. -/
def getAllSentimentData (fg : Option ℕ) (btcDom mcap funding ls : Option ℚ) :
    SentimentData :=
  let scores : List ℚ :=
    (fg.map fun v => ((v : ℚ))).toList
    ++ (funding.map fundingScore).toList
    ++ (ls.map lsRatioScore).toList
    ++ (mcap.map mcapScore).toList
  { fear_greed := fg
    btc_dominance := btcDom
    market_cap_change := mcap
    funding_rate := funding
    long_short_ratio := ls
    sentiment_score :=
      if scores = [] then 50 else round1 (scores.sum / scores.length) }

/-- Trend classes (TrendType enum). -/
inductive TrendType
  | strongUp
  | up
  | sideways
  | down
  | strongDown
deriving Repr, DecidableEq

/-- Trend contribution to the environment score
(macro_analysis.py lines 126-141). -/
def trendContrib : TrendType → ℤ
  | .sideways => 15
  | .up => 5
  | .strongUp => -5
  | .down => -10
  | .strongDown => -20

/-- Volatility contribution (lines 144-156). -/
def volContrib (volScore : ℚ) : ℤ :=
  if volScore < 30 then 10
  else if volScore < 60 then 15
  else if volScore < 80 then -5
  else -20

/-- Sentiment-band contribution (lines 165-176). -/
def sentContrib (ss : ℚ) : ℤ :=
  if 40 ≤ ss ∧ ss ≤ 60 then 10
  else if ss < 25 then -5
  else if 75 < ss then -10
  else 0

/-- MacroAnalyzer._calculate_environment_score restricted to the score
(the parallel `position` accumulator is analogous): base 50, trend and
volatility contributions, spike penalty, sentiment band, funding-rate and
long/short-ratio penalties applied only when the source is present, then
clamped to [0, 100]. -/
def envScore (trend : TrendType) (volScore : ℚ) (spike : Bool)
    (sent : SentimentData) : ℤ :=
  let raw : ℤ := 50 + trendContrib trend + volContrib volScore
    + (if spike then -15 else 0)
    + sentContrib sent.sentiment_score
    + (match sent.funding_rate with
       | some r => if 1/1000 < |r| then -5 else 0
       | none => 0)
    + (match sent.long_short_ratio with
       | some ratio => if 2 < ratio ∨ ratio < 1/2 then -5 else 0
       | none => 0)
  max 0 (min 100 raw)

/-! ### Persistence write model (smart_grid.py _save_orders,
risk_control.py _save_state) -/

/-- Elementary file-system steps a save routine may take on the document's
main path and a temp path. -/
inductive SaveStep
  | openTruncate
  | writeAll (doc : String)
  | writeTemp (doc : String)
  | renameTempOver
deriving Repr, DecidableEq

/-- The step sequence of _save_orders / _save_state in the source:
`open(path, "w")` truncates the document in place, then `json.dump` writes
the new content.  No temp file, no rename. -/
def saveOrdersSteps (doc : String) : List SaveStep :=
  [.openTruncate, .writeAll doc]

/-- The step sequence of an atomic temp-file-plus-rename rewrite, as the
specification prescribes. -/
def atomicSaveSteps (doc : String) : List SaveStep :=
  [.writeTemp doc, .renameTempOver]

/-- Contents of the main document and the temp file. -/
structure Disk where
  main : Option String
  temp : Option String
deriving Repr, DecidableEq

/-- Effect of one step. -/
def applyStep (d : Disk) : SaveStep → Disk
  | .openTruncate => { d with main := some "" }
  | .writeAll doc => { d with main := some doc }
  | .writeTemp doc => { d with temp := some doc }
  | .renameTempOver => { main := d.temp, temp := none }

/-- Every disk state observable if the process crashes before, between or
after the steps. -/
def crashStates (d : Disk) : List SaveStep → List Disk
  | [] => [d]
  | st :: rest => d :: crashStates (applyStep d st) rest

/-! ### Helper lemmas -/

lemma abs_roundHalfEven_sub_le (q : ℚ) : |(roundHalfEven q : ℚ) - q| ≤ 1/2 := by
  have h1 : (⌊q⌋ : ℚ) ≤ q := Int.floor_le q
  have h2 : q < ⌊q⌋ + 1 := Int.lt_floor_add_one q
  unfold roundHalfEven
  split_ifs with hlt heq hev <;>
    · push_cast
      rw [abs_le]
      constructor <;> linarith

lemma roundHalfEven_lt_of_gap {a b : ℚ} (h : a + 1 < b) :
    roundHalfEven a < roundHalfEven b := by
  have ha := abs_le.mp (abs_roundHalfEven_sub_le a)
  have hb := abs_le.mp (abs_roundHalfEven_sub_le b)
  have : (roundHalfEven a : ℚ) < roundHalfEven b := by linarith
  exact_mod_cast this

lemma round2_lt_of_gap {a b : ℚ} (h : a + 1/100 < b) : round2 a < round2 b := by
  have h100 : 100 * a + 1 < 100 * b := by linarith
  have := roundHalfEven_lt_of_gap h100
  have hc : (roundHalfEven (100 * a) : ℚ) < roundHalfEven (100 * b) := by
    exact_mod_cast this
  unfold round2
  exact div_lt_div_of_pos_right hc (by norm_num)

lemma roundHalfEven_eval (q : ℚ) (n : ℤ) (h1 : (n : ℚ) ≤ q) (h2 : q < n + 1) :
    roundHalfEven q =
      if q - n < 1/2 then n
      else if q - n = 1/2 then (if n % 2 = 0 then n else n + 1)
      else n + 1 := by
  have hf : ⌊q⌋ = n := Int.floor_eq_iff.mpr ⟨h1, h2⟩
  simp [roundHalfEven, hf]

lemma pyInt_of_nonneg {q : ℚ} (h : 0 ≤ q) : pyInt q = ⌊q⌋ := if_pos h

lemma initGrids_length (lower upper : ℚ) (count : ℕ) :
    (initGrids lower upper count).length = count + 1 := by
  simp [initGrids]

lemma initGrids_getD (lower upper : ℚ) (count : ℕ) {i : ℕ} (h : i < count + 1) :
    (initGrids lower upper count).getD i noLevel =
      { index := i
        price := round2 (lower + i * ((upper - lower) / count))
        is_bought := false
        buy_price := 0
        buy_amount := 0
        buy_time := ""
        order_id := "" } := by
  rw [initGrids, List.getD_eq_getElem?_getD, List.getElem?_map, List.getElem?_range h]
  rfl

lemma getGridIndex_bounds (lower upper spacing : ℚ) (count : ℕ) (p : ℚ)
    (hlu : lower < upper) (hc : 0 < count) (hs : spacing = (upper - lower) / count) :
    0 ≤ getGridIndex lower upper spacing count p ∧
      getGridIndex lower upper spacing count p ≤ count := by
  have hsp : 0 < spacing := by
    rw [hs]
    exact div_pos (sub_pos.mpr hlu) (by exact_mod_cast hc)
  unfold getGridIndex
  split_ifs with h1 h2
  · exact ⟨le_refl 0, Int.ofNat_nonneg count⟩
  · exact ⟨Int.ofNat_nonneg count, le_refl _⟩
  · have hp : lower < p := lt_of_not_le h1
    have hq : 0 ≤ (p - lower) / spacing :=
      le_of_lt (div_pos (sub_pos.mpr hp) hsp)
    rw [pyInt_of_nonneg hq]
    exact ⟨le_min (Int.floor_nonneg.mpr hq) (Int.ofNat_nonneg count),
      min_le_right _ _⟩

end GridBot

namespace GridBot

/-! ### Claim theorems -/

/-- C9: for every grid configuration (upper > lower, count > 0, spacing as
initialized), get_grid_index is monotone non-decreasing in the price and its
result always lies in [0, count]. -/
theorem c9_grid_index_monotone_and_bounded
    (lower upper spacing : ℚ) (count : ℕ) (p1 p2 : ℚ)
    (hlu : lower < upper) (hc : 0 < count)
    (hs : spacing = (upper - lower) / count) (hp : p1 ≤ p2) :
    (0 ≤ getGridIndex lower upper spacing count p1 ∧
      getGridIndex lower upper spacing count p1 ≤ count) ∧
    getGridIndex lower upper spacing count p1 ≤
      getGridIndex lower upper spacing count p2 := by
  refine ⟨getGridIndex_bounds lower upper spacing count p1 hlu hc hs, ?_⟩
  have hsp : 0 < spacing := by
    rw [hs]
    exact div_pos (sub_pos.mpr hlu) (by exact_mod_cast hc)
  by_cases h1 : p1 ≤ lower
  · have : getGridIndex lower upper spacing count p1 = 0 := by
      unfold getGridIndex
      rw [if_pos h1]
    rw [this]
    exact (getGridIndex_bounds lower upper spacing count p2 hlu hc hs).1
  · have hl1 : lower < p1 := lt_of_not_le h1
    have hl2 : ¬ p2 ≤ lower := not_le.mpr (lt_of_lt_of_le hl1 hp)
    by_cases h2 : p1 ≥ upper
    · have hu2 : p2 ≥ upper := le_trans h2 hp
      unfold getGridIndex
      rw [if_neg h1, if_pos h2, if_neg hl2, if_pos hu2]
    · by_cases h3 : p2 ≥ upper
      · have : getGridIndex lower upper spacing count p2 = count := by
          unfold getGridIndex
          rw [if_neg hl2, if_pos h3]
        rw [this]
        exact (getGridIndex_bounds lower upper spacing count p1 hlu hc hs).2
      · unfold getGridIndex
        rw [if_neg h1, if_neg h2, if_neg hl2, if_neg h3]
        have hq1 : 0 ≤ (p1 - lower) / spacing :=
          le_of_lt (div_pos (sub_pos.mpr hl1) hsp)
        have hdiv : (p1 - lower) / spacing ≤ (p2 - lower) / spacing :=
          (div_le_div_iff_of_pos_right hsp).mpr (by linarith)
        have hq2 : 0 ≤ (p2 - lower) / spacing := le_trans hq1 hdiv
        rw [pyInt_of_nonneg hq1, pyInt_of_nonneg hq2]
        exact min_le_min (Int.floor_le_floor hdiv) (le_refl _)

/-- C9 witness: the configuration of the spec scenario (lower 2900, upper
3200, 10 grids, spacing 30) at prices 2950 and 3050. -/
theorem c9_witness :
    (0 ≤ getGridIndex 2900 3200 30 10 2950 ∧
      getGridIndex 2900 3200 30 10 2950 ≤ 10) ∧
    getGridIndex 2900 3200 30 10 2950 ≤ getGridIndex 2900 3200 30 10 3050 :=
  c9_grid_index_monotone_and_bounded 2900 3200 30 10 2950 3050
    (by norm_num) (by norm_num) (by norm_num) (by norm_num)

/-- C3 (amended): initializing the grid produces count+1 levels; the trigger
of level i is `lower + i * (upper - lower)/count` rounded to 2 decimals (the
source rounds every price with `round(price, 2)`); the triggers are strictly
increasing whenever the spacing exceeds 0.01. -/
theorem c3_trigger_prices_rounded (lower upper : ℚ) (count : ℕ)
    (hlu : lower < upper) (_hc : 0 < count) :
    (initGrids lower upper count).length = count + 1 ∧
    smartInitGrids lower upper count = initGrids lower upper count ∧
    (∀ i : ℕ, i ≤ count →
      (initGrids lower upper count).getD i noLevel =
        { index := i
          price := round2 (lower + i * ((upper - lower) / count))
          is_bought := false
          buy_price := 0
          buy_amount := 0
          buy_time := ""
          order_id := "" }) ∧
    (1/100 < (upper - lower) / count →
      ∀ i : ℕ, i < count →
        ((initGrids lower upper count).getD i noLevel).price <
          ((initGrids lower upper count).getD (i + 1) noLevel).price) := by
  refine ⟨initGrids_length lower upper count, ?_, ?_, ?_⟩
  · unfold smartInitGrids
    rw [if_neg (not_le.mpr hlu)]
  · intro i hi
    exact initGrids_getD lower upper count (Nat.lt_succ_of_le hi)
  · intro hsp i hi
    rw [initGrids_getD lower upper count (by omega),
      initGrids_getD lower upper count (by omega)]
    show round2 (lower + i * ((upper - lower) / count)) <
      round2 (lower + (i + 1 : ℕ) * ((upper - lower) / count))
    apply round2_lt_of_gap
    have hcast : ((i + 1 : ℕ) : ℚ) = (i : ℚ) + 1 := by push_cast; ring
    rw [hcast]
    have : ((i : ℚ) + 1) * ((upper - lower) / count)
        = i * ((upper - lower) / count) + (upper - lower) / count := by ring
    rw [this]
    linarith

/-- C3 counterexample: with lower 1, upper 1.004, count 2 (spacing 0.002)
the level-1 trigger is 1, not `lower + 1 * spacing = 1.002`, and the
triggers are not strictly increasing. -/
theorem c3_counterexample :
    ((initGrids 1 (251/250) 2).getD 1 noLevel).price ≠
      (1 : ℚ) + 1 * ((251/250 - 1) / 2) ∧
    ¬ ((initGrids 1 (251/250) 2).getD 0 noLevel).price <
        ((initGrids 1 (251/250) 2).getD 1 noLevel).price := by
  have h1 : ((initGrids 1 (251/250) 2).getD 1 noLevel).price = 1 := by
    rw [initGrids_getD 1 (251/250) 2 (by norm_num)]
    show round2 (1 + ((1 : ℕ) : ℚ) * (((251/250 : ℚ) - 1) / ((2 : ℕ) : ℚ))) = 1
    have he : (1 + ((1 : ℕ) : ℚ) * (((251/250 : ℚ) - 1) / ((2 : ℕ) : ℚ)))
        = 501/500 := by push_cast; ring
    rw [he, round2, roundHalfEven_eval _ 100 (by norm_num) (by norm_num)]
    norm_num
  have h0 : ((initGrids 1 (251/250) 2).getD 0 noLevel).price = 1 := by
    rw [initGrids_getD 1 (251/250) 2 (by norm_num)]
    show round2 (1 + ((0 : ℕ) : ℚ) * (((251/250 : ℚ) - 1) / ((2 : ℕ) : ℚ))) = 1
    have he : (1 + ((0 : ℕ) : ℚ) * (((251/250 : ℚ) - 1) / ((2 : ℕ) : ℚ)))
        = 1 := by push_cast; ring
    rw [he, round2, roundHalfEven_eval _ 100 (by norm_num) (by norm_num)]
    norm_num
  constructor
  · rw [h1]
    norm_num
  · rw [h0, h1]
    exact lt_irrefl 1

/-- C3 witness: concrete configuration 2900-3200 with 10 grids. -/
theorem c3_witness :
    (initGrids 2900 3200 10).length = 10 + 1 ∧
    smartInitGrids 2900 3200 10 = initGrids 2900 3200 10 ∧
    (∀ i : ℕ, i ≤ 10 →
      (initGrids 2900 3200 10).getD i noLevel =
        { index := i
          price := round2 (2900 + i * ((3200 - 2900) / 10))
          is_bought := false
          buy_price := 0
          buy_amount := 0
          buy_time := ""
          order_id := "" }) ∧
    (1/100 < ((3200 : ℚ) - 2900) / 10 →
      ∀ i : ℕ, i < 10 →
        ((initGrids 2900 3200 10).getD i noLevel).price <
          ((initGrids 2900 3200 10).getD (i + 1) noLevel).price) :=
  c3_trigger_prices_rounded 2900 3200 10 (by norm_num) (by norm_num)

/-- C4 (amended): in SmartGridStrategy._execute_sell a successful sell of
the level holding qty at buy price p1, sold at price p2, adds exactly
`qty * (p2 - p1) - fee_rate * qty * (p1 + p2)` to total_profit and resets
the level to empty; the legacy GridStrategy._execute_sell adds the gross
`qty * (p2 - p1)` with no fee deduction (also resetting the level). -/
theorem c4_sell_profit_and_reset (env : TickEnv) (s : SmartGridState)
    (ls : LegacyState) (i j : ℕ) (price : ℚ)
    (hsell : env.sellOrder i = true) :
    (executeSell env s i price).ok = true ∧
    (executeSell env s i price).state.total_profit =
      s.total_profit +
        ((s.grids.getD i noLevel).buy_amount *
            (price - (s.grids.getD i noLevel).buy_price)
          - TRADING_FEE_RATE * (s.grids.getD i noLevel).buy_amount *
            ((s.grids.getD i noLevel).buy_price + price)) ∧
    (executeSell env s i price).state.grids =
      s.grids.set i (resetLevel (s.grids.getD i noLevel)) ∧
    (resetLevel (s.grids.getD i noLevel)).is_bought = false ∧
    (resetLevel (s.grids.getD i noLevel)).buy_price = 0 ∧
    (resetLevel (s.grids.getD i noLevel)).buy_amount = 0 ∧
    (legacyExecuteSell true ls j price).2.total_profit =
      ls.total_profit +
        (ls.grids.getD j noLevel).buy_amount *
          (price - (ls.grids.getD j noLevel).buy_price) ∧
    (legacyExecuteSell true ls j price).2.grids =
      ls.grids.set j (resetLevel (ls.grids.getD j noLevel)) := by
  refine ⟨?_, ?_, ?_, rfl, rfl, rfl, ?_, ?_⟩
  · simp [executeSell, hsell]
  · simp only [executeSell, hsell, if_true]
    show s.total_profit + netProfit (s.grids.getD i noLevel) price = _
    rw [netProfit, TRADING_FEE_RATE]
    ring
  · simp [executeSell, hsell]
  · simp only [legacyExecuteSell, if_true]
    ring
  · simp [legacyExecuteSell]

/-- C4 counterexample: the claim fails on the cited legacy
GridStrategy._execute_sell.  A level bought at 100 with quantity 1 and sold
at 110 adds the gross 10 to total_profit, not the fee-adjusted
`1 * (110 - 100) - fee_rate * 1 * (100 + 110) = 9.79`. -/
theorem c4_counterexample :
    (legacyExecuteSell true
      { upper_price := 3200, lower_price := 2900, grid_count := 10,
        amount_per_grid := 100, stop_loss_price := 2800, grid_spacing := 30,
        grids := [⟨0, 2900, true, 100, 1, "", ""⟩],
        total_profit := 0, trade_count := 0 } 0 110).2.total_profit = 10 ∧
    (10 : ℚ) ≠ 1 * (110 - 100) - TRADING_FEE_RATE * 1 * (100 + 110) := by
  constructor
  · simp [legacyExecuteSell]
    norm_num
  · rw [TRADING_FEE_RATE]
    norm_num

/-- C4 witness: a sell of the level bought at 100 with quantity 1, at price
110, with a successful exchange order. -/
theorem c4_witness :
    (executeSell ⟨true, fun _ => none, fun _ => none, fun _ => true, "t"⟩
      { upper_price := 3200, lower_price := 2900, grid_count := 10,
        amount_per_grid := 100, stop_loss_price := 2800, grid_spacing := 30,
        grids := [⟨0, 2900, true, 100, 1, "", ""⟩], total_profit := 0,
        trade_count := 0, consecutive_stop_loss_count := 0,
        max_consecutive_stop_loss := 3, is_halted := false,
        halt_reason := "" } 0 110).ok = true ∧
    (executeSell ⟨true, fun _ => none, fun _ => none, fun _ => true, "t"⟩
      { upper_price := 3200, lower_price := 2900, grid_count := 10,
        amount_per_grid := 100, stop_loss_price := 2800, grid_spacing := 30,
        grids := [⟨0, 2900, true, 100, 1, "", ""⟩], total_profit := 0,
        trade_count := 0, consecutive_stop_loss_count := 0,
        max_consecutive_stop_loss := 3, is_halted := false,
        halt_reason := "" } 0 110).state.total_profit =
      0 +
        (([(⟨0, 2900, true, 100, 1, "", ""⟩ : GridLevel)].getD 0 noLevel).buy_amount *
            (110 - ([(⟨0, 2900, true, 100, 1, "", ""⟩ : GridLevel)].getD 0 noLevel).buy_price)
          - TRADING_FEE_RATE * ([(⟨0, 2900, true, 100, 1, "", ""⟩ : GridLevel)].getD 0 noLevel).buy_amount *
            (([(⟨0, 2900, true, 100, 1, "", ""⟩ : GridLevel)].getD 0 noLevel).buy_price + 110)) :=
  ⟨(c4_sell_profit_and_reset ⟨true, fun _ => none, fun _ => none, fun _ => true, "t"⟩
      { upper_price := 3200, lower_price := 2900, grid_count := 10,
        amount_per_grid := 100, stop_loss_price := 2800, grid_spacing := 30,
        grids := [⟨0, 2900, true, 100, 1, "", ""⟩], total_profit := 0,
        trade_count := 0, consecutive_stop_loss_count := 0,
        max_consecutive_stop_loss := 3, is_halted := false, halt_reason := "" }
      { upper_price := 3200, lower_price := 2900, grid_count := 10,
        amount_per_grid := 100, stop_loss_price := 2800, grid_spacing := 30,
        grids := [⟨0, 2900, true, 100, 1, "", ""⟩],
        total_profit := 0, trade_count := 0 } 0 0 110 rfl).1,
   (c4_sell_profit_and_reset ⟨true, fun _ => none, fun _ => none, fun _ => true, "t"⟩
      { upper_price := 3200, lower_price := 2900, grid_count := 10,
        amount_per_grid := 100, stop_loss_price := 2800, grid_spacing := 30,
        grids := [⟨0, 2900, true, 100, 1, "", ""⟩], total_profit := 0,
        trade_count := 0, consecutive_stop_loss_count := 0,
        max_consecutive_stop_loss := 3, is_halted := false, halt_reason := "" }
      { upper_price := 3200, lower_price := 2900, grid_count := 10,
        amount_per_grid := 100, stop_loss_price := 2800, grid_spacing := 30,
        grids := [⟨0, 2900, true, 100, 1, "", ""⟩],
        total_profit := 0, trade_count := 0 } 0 0 110 rfl).2.1⟩

/-- C2: a stop-loss tick (risk gate open, price at or below the stop-loss
price) increments the consecutive-stop-loss counter and sets the halted
flag exactly when the counter reaches max_consecutive_stop_loss; a halted
strategy ignores every further tick without trading or mutating any state
(so the flag stays set across any tick sequence); only the explicit
resume_trading call clears it (also resetting the counter); and a
profitable sell resets the counter to 0. -/
theorem c2_stop_loss_halt_machine (env : TickEnv) (price : ℚ)
    (s : SmartGridState) (ticks : List (TickEnv × ℚ)) (i : ℕ) :
    (s.is_halted = true →
      checkAndTrade env price s = (⟨.noSignal, false⟩, ⟨false, s, []⟩)) ∧
    (s.is_halted = true →
      ticks.foldl (fun st t => (checkAndTrade t.1 t.2 st).2.state) s = s) ∧
    (s.is_halted = false → env.riskShouldTrade = true →
      price ≤ s.stop_loss_price →
      (checkAndTrade env price s).1.action = .stopLoss ∧
      (checkAndTrade env price s).2.state.consecutive_stop_loss_count =
        s.consecutive_stop_loss_count + 1 ∧
      ((checkAndTrade env price s).2.state.is_halted = true ↔
        s.max_consecutive_stop_loss ≤ s.consecutive_stop_loss_count + 1)) ∧
    ((resumeTrading s).is_halted = false ∧
      (resumeTrading s).halt_reason = "" ∧
      (resumeTrading s).consecutive_stop_loss_count = 0) ∧
    (env.sellOrder i = true →
      0 < netProfit (s.grids.getD i noLevel) price →
      (executeSell env s i price).state.consecutive_stop_loss_count = 0) := by
  refine ⟨?_, ?_, ?_, ⟨rfl, rfl, rfl⟩, ?_⟩
  · intro h
    simp [checkAndTrade, h]
  · intro h
    induction ticks with
    | nil => rfl
    | cons t ts ih =>
      have hstep : (checkAndTrade t.1 t.2 s).2.state = s := by
        simp [checkAndTrade, h]
      simpa [List.foldl, hstep] using ih
  · intro hh hr hsl
    have hu : checkAndTrade env price s =
        (⟨.stopLoss, false⟩, ⟨false,
          (if s.max_consecutive_stop_loss ≤ s.consecutive_stop_loss_count + 1
            then { s with
              consecutive_stop_loss_count := s.consecutive_stop_loss_count + 1,
              is_halted := true, halt_reason := haltReasonMsg }
            else { s with
              consecutive_stop_loss_count := s.consecutive_stop_loss_count + 1 }),
          []⟩) := by
      rw [checkAndTrade]
      rw [if_neg (by simp [hh]), if_neg (by simp [hr]), if_pos hsl]
    rw [hu]
    by_cases hth : s.max_consecutive_stop_loss ≤ s.consecutive_stop_loss_count + 1
    · rw [if_pos hth]
      exact ⟨rfl, rfl, by simp [hth]⟩
    · rw [if_neg hth]
      exact ⟨rfl, rfl, by simp [hth, hh]⟩
  · intro hsell hnp
    rw [List.getD_eq_getElem?_getD] at hnp
    simp [executeSell, hsell, hnp]

/-- C2 witness: a strategy two stop-losses deep (threshold 3, the default)
takes a third stop-loss tick at price 2700 (stop-loss price 2800): the
counter reaches 3 and the halted flag is set. -/
theorem c2_witness :
    (checkAndTrade sampleEnv 2700 twoStopLossState).2.state.is_halted = true ∧
    (checkAndTrade sampleEnv 2700 twoStopLossState).2.state.consecutive_stop_loss_count
      = 2 + 1 := by
  have h := (c2_stop_loss_halt_machine sampleEnv 2700 twoStopLossState [] 0).2.2.1
    rfl rfl (by norm_num [twoStopLossState])
  exact ⟨h.2.2.mpr (by norm_num [twoStopLossState]), h.2.1⟩

/-- C1 (amended): the composite risk score is the weighted sum of the five
check outcomes - 30 for a drawdown breach, otherwise 15 when the drawdown
percentage rounded to 2 decimals exceeds 70 percent of the limit; 25 for a
daily-loss breach, otherwise 10 when the daily pnl is below 70 percent of
the loss limit; 20 for a consecutive-loss breach; 25 for a detected price
anomaly; 15 for a position-limit breach - and should_trade holds iff the
score is strictly below 40. -/
theorem c1_risk_score_and_gate (s : RiskState) (cv cp pv : ℚ) :
    (getRiskAssessment s cv cp pv).1.risk_score =
      (if (checkDrawdown s cv).exceeded then 30
       else if s.max_drawdown_percent * (7/10) <
          (checkDrawdown s cv).drawdown_percent then 15
       else 0)
      + (if checkDailyLoss s then 25
         else if s.daily_pnl < -(s.daily_loss_limit * (7/10)) then 10
         else 0)
      + (if checkConsecutiveLosses s then 20 else 0)
      + (if (checkPriceAnomaly s cp).anomaly_detected then 25 else 0)
      + (if checkPositionLimit s pv then 15 else 0) ∧
    ((getRiskAssessment s cv cp pv).1.should_trade = true ↔
      (getRiskAssessment s cv cp pv).1.risk_score < 40) := by
  constructor
  · rfl
  · show (if (getRiskAssessment s cv cp pv).1.risk_score < 40
        then true else false) = true ↔ _
    by_cases h : (getRiskAssessment s cv cp pv).1.risk_score < 40
    · simp [h]
    · simp [h]

/-- C1 counterexample: with peak 1000, current value 929.96 (drawdown
7.004 percent, limit 10), the +15 tier compares the rounded percentage
7.0 against 7 and does not fire, so the code's score is 0 while the
claimed weighted score (exact drawdown exceeding 70 percent of the limit)
is 15. -/
theorem c1_counterexample :
    (getRiskAssessment peak1000RiskState (23249/25) 100 0).1.risk_score = 0 ∧
    specRiskScore peak1000RiskState (23249/25) 100 0 = 15 ∧
    (0 : ℕ) ≠ 15 := by
  have harg : ((1000 : ℚ) - 23249/25) / 1000 * 100 = 1751/250 := by norm_num
  have hround : round2 (1751/250) = 7 := by
    rw [round2, roundHalfEven_eval (100 * (1751/250 : ℚ)) 700
      (by norm_num) (by norm_num)]
    norm_num
  refine ⟨?_, ?_, by norm_num⟩
  · norm_num [getRiskAssessment, checkDrawdown, checkDailyLoss,
      checkConsecutiveLosses, checkPriceAnomaly, checkPositionLimit,
      peak1000RiskState, initialRiskState, harg, hround]
  · norm_num [specRiskScore, checkConsecutiveLosses, checkPriceAnomaly,
      checkPositionLimit, peak1000RiskState, initialRiskState]

/-- C6 (amended): breaches pause trading only when the composite score
reaches 40: then the sticky paused flag is set together with the reason
composed from the drawdown, daily-loss, consecutive-loss and anomaly
breaches (a position-limit breach contributes to the score but is not
named); below 40 the assessment leaves the flag and reason untouched (in
particular it never clears them); resume_trading clears the flag and
reason and resets the consecutive-loss counter. -/
theorem c6_pause_flag_sticky (s : RiskState) (cv cp pv : ℚ) :
    (40 ≤ (getRiskAssessment s cv cp pv).1.risk_score →
      (getRiskAssessment s cv cp pv).2.trading_paused = true ∧
      (getRiskAssessment s cv cp pv).2.pause_reason =
        composeReasons (checkDrawdown s cv) (checkDailyLoss s)
          (checkConsecutiveLosses s) (checkPriceAnomaly s cp) s) ∧
    ((getRiskAssessment s cv cp pv).1.risk_score < 40 →
      (getRiskAssessment s cv cp pv).2.trading_paused = s.trading_paused ∧
      (getRiskAssessment s cv cp pv).2.pause_reason = s.pause_reason) ∧
    ((riskResumeTrading s).trading_paused = false ∧
      (riskResumeTrading s).pause_reason = [] ∧
      (riskResumeTrading s).consecutive_losses = 0) := by
  refine ⟨?_, ?_, rfl, rfl, rfl⟩
  · intro h
    simp only [getRiskAssessment] at h ⊢
    rw [if_pos h]
    exact ⟨rfl, rfl⟩
  · intro h
    simp only [getRiskAssessment] at h ⊢
    rw [if_neg (not_le.mpr h)]
    exact ⟨rfl, rfl⟩

/-- C6 counterexample: a position-limit breach alone (position value 600
against the 500 limit, everything else healthy) scores 15, below 40, so
the paused flag is not set even though a breach was detected; moreover the
composed reason never names a position-limit breach. -/
theorem c6_counterexample :
    checkPositionLimit initialRiskState 600 = true ∧
    (getRiskAssessment initialRiskState 1000 100 600).1.risk_score = 15 ∧
    (getRiskAssessment initialRiskState 1000 100 600).2.trading_paused = false ∧
    composeReasons (checkDrawdown initialRiskState 1000)
      (checkDailyLoss initialRiskState)
      (checkConsecutiveLosses initialRiskState)
      (checkPriceAnomaly initialRiskState 100) initialRiskState = [] := by
  refine ⟨?_, ?_, ?_, ?_⟩
  · norm_num [checkPositionLimit, initialRiskState]
  · norm_num [getRiskAssessment, checkDrawdown, checkDailyLoss,
      checkConsecutiveLosses, checkPriceAnomaly, checkPositionLimit,
      initialRiskState]
  · norm_num [getRiskAssessment, checkDrawdown, checkDailyLoss,
      checkConsecutiveLosses, checkPriceAnomaly, checkPositionLimit,
      initialRiskState, recordPrice]
  · norm_num [composeReasons, checkDrawdown, checkDailyLoss,
      checkConsecutiveLosses, checkPriceAnomaly, initialRiskState]

/-- C6 witness: drawdown breach (20 percent against the 10 percent limit)
plus daily-loss breach (-60 against the 50 limit) score 55, so the paused
flag is set. -/
theorem c6_witness :
    (getRiskAssessment breachRiskState 800 100 0).2.trading_paused = true := by
  have hround : round2 (20 : ℚ) = 20 := by
    rw [round2, roundHalfEven_eval (100 * (20 : ℚ)) 2000
      (by norm_num) (by norm_num)]
    norm_num
  have hscore : (getRiskAssessment breachRiskState 800 100 0).1.risk_score = 55 := by
    norm_num [getRiskAssessment, checkDrawdown, checkDailyLoss,
      checkConsecutiveLosses, checkPriceAnomaly, checkPositionLimit,
      breachRiskState, peak1000RiskState, initialRiskState, hround]
  exact ((c6_pause_flag_sticky breachRiskState 800 100 0).1
    (by rw [hscore]; norm_num)).1

/-- C7 (amended): with the default policy (3 attempts in total, so at most
2 retries, base delay 1, backoff 2) a success returns immediately, a
non-transient error is raised at once with no retry, and a run of transient
errors retries with exponential backoff delays 1 then 2 - each wait raised
to at least the server retry-after for rate-limit errors (a floor, not a
cap) - and after the third failed attempt the last error is raised. -/
theorem c7_retry_policy (f : ℕ → CallOutcome) (v : ℕ)
    (e1 e2 e3 : TransientErr) :
    (f 1 = .ok v → retryRun 3 1 2 f = ⟨.success v, [], 1⟩) ∧
    (f 1 = .fatal → retryRun 3 1 2 f = ⟨.fatalRaised, [], 1⟩) ∧
    (f 1 = .transient e1 → f 2 = .transient e2 → f 3 = .transient e3 →
      retryRun 3 1 2 f =
        ⟨.raisedTransient e3, [waitFor 1 e1, waitFor 2 e2], 3⟩) := by
  refine ⟨?_, ?_, ?_⟩
  · intro h1
    show retryGo f 2 (2 + 1) 1 1 [] = _
    simp [retryGo, h1]
  · intro h1
    show retryGo f 2 (2 + 1) 1 1 [] = _
    simp [retryGo, h1]
  · intro h1 h2 h3
    simp [retryRun, retryGo, h1, h2, h3]

/-- C7 counterexample: with a server retry-after of 0.5 the waits are the
backoff delays 1 and 2, both exceeding 0.5 - the wait is not capped by the
retry-after value (the code takes `max(current_delay, retry_after)`), and
the error is surfaced after 3 calls in total, i.e. 2 retries. -/
theorem c7_counterexample :
    retryRun 3 1 2 (fun _ => CallOutcome.transient (.rateLimit (1/2))) =
      ⟨.raisedTransient (.rateLimit (1/2)), [1, 2], 3⟩ ∧
    ¬ ((1 : ℚ) ≤ 1/2) := by
  constructor
  · simp [retryRun, retryGo, waitFor, max_def]
    norm_num
  · norm_num

/-- C7 witness: three rate-limited attempts with retry-after 5; both waits
are raised to 5. -/
theorem c7_witness :
    retryRun 3 1 2 (fun _ => CallOutcome.transient (.rateLimit 5)) =
      ⟨.raisedTransient (.rateLimit 5),
        [waitFor 1 (.rateLimit 5), waitFor 2 (.rateLimit 5)], 3⟩ :=
  (c7_retry_policy (fun _ => CallOutcome.transient (.rateLimit 5)) 0
    (.rateLimit 5) (.rateLimit 5) (.rateLimit 5)).2.2 rfl rfl rfl

/-- C8: when every external sentiment fetch fails, get_all_sentiment_data
returns the default sentiment_score 50 (no error - the function is total),
and the environment score is then the clamped sum of base 50, the trend and
volatility contributions, the spike penalty, and the neutral-band +10 -
with no extreme-sentiment, funding-rate or long/short-ratio penalty. -/
theorem c8_all_sources_failed_defaults (trend : TrendType) (volScore : ℚ)
    (spike : Bool) :
    (getAllSentimentData none none none none none).sentiment_score = 50 ∧
    envScore trend volScore spike (getAllSentimentData none none none none none) =
      max 0 (min 100 (50 + trendContrib trend + volContrib volScore +
        (if spike then -15 else 0) + 10)) := by
  constructor
  · simp [getAllSentimentData]
  · simp [envScore, getAllSentimentData, sentContrib]
    norm_num

/-- C10: constructing a GridStrategy replays the persisted snapshot onto the
freshly built grids and then unconditionally zeroes total_profit and
trade_count, so the per-level occupancy/fill fields are restored (the
trigger price and index are kept from initialization) while both aggregate
counters are 0 for every persisted snapshot. -/
theorem c10_init_restores_levels_resets_counters (lower upper : ℚ)
    (count : ℕ) (amount stopLoss : ℚ) (snap : Snapshot) (e : SnapLevel)
    (tp : ℚ) (tc : ℕ) (he : e.index ≤ count) :
    (gridStrategyInit lower upper count amount stopLoss (some snap)).total_profit = 0 ∧
    (gridStrategyInit lower upper count amount stopLoss (some snap)).trade_count = 0 ∧
    (gridStrategyInit lower upper count amount stopLoss (some snap)).grids =
      snap.grids.foldl applySnap (initGrids lower upper count) ∧
    (gridStrategyInit lower upper count amount stopLoss
        (some ⟨[e], tp, tc⟩)).grids.getD e.index noLevel =
      { index := e.index
        price := round2 (lower + e.index * ((upper - lower) / count))
        is_bought := e.is_bought
        buy_price := e.buy_price
        buy_amount := e.buy_amount
        buy_time := e.buy_time
        order_id := e.order_id } := by
  refine ⟨rfl, rfl, rfl, ?_⟩
  have hlen : e.index < (initGrids lower upper count).length := by
    rw [initGrids_length]
    omega
  show (List.foldl applySnap (initGrids lower upper count) [e]).getD
    e.index noLevel = _
  rw [List.foldl_cons, List.foldl_nil, applySnap, if_pos hlen]
  rw [List.getD_eq_getElem?_getD, List.getElem?_set_self (by simpa using hlen)]
  rw [initGrids_getD lower upper count (by omega)]
  rfl

/-- C10 witness: snapshot with one occupied level (index 3, bought at 2990,
quantity 1) and nonzero persisted counters (profit 42, 7 trades) on the
2900-3200, 10-grid configuration. -/
theorem c10_witness :
    (gridStrategyInit 2900 3200 10 100 2800
      (some ⟨[⟨3, true, 2990, 1, "t", "o"⟩], 42, 7⟩)).total_profit = 0 ∧
    (gridStrategyInit 2900 3200 10 100 2800
      (some ⟨[⟨3, true, 2990, 1, "t", "o"⟩], 42, 7⟩)).trade_count = 0 ∧
    (gridStrategyInit 2900 3200 10 100 2800
      (some ⟨[⟨3, true, 2990, 1, "t", "o"⟩], 42, 7⟩)).grids =
      List.foldl applySnap (initGrids 2900 3200 10)
        (Snapshot.mk [⟨3, true, 2990, 1, "t", "o"⟩] 42 7).grids ∧
    (gridStrategyInit 2900 3200 10 100 2800
      (some ⟨[(⟨3, true, 2990, 1, "t", "o"⟩ : SnapLevel)], 42, 7⟩)).grids.getD
        (SnapLevel.mk 3 true 2990 1 "t" "o").index noLevel =
      { index := (SnapLevel.mk 3 true 2990 1 "t" "o").index
        price := round2 (2900 + (SnapLevel.mk 3 true 2990 1 "t" "o").index *
          ((3200 - 2900) / 10))
        is_bought := true
        buy_price := 2990
        buy_amount := 1
        buy_time := "t"
        order_id := "o" } :=
  c10_init_restores_levels_resets_counters 2900 3200 10 100 2800
    ⟨[⟨3, true, 2990, 1, "t", "o"⟩], 42, 7⟩ ⟨3, true, 2990, 1, "t", "o"⟩
    42 7 (by norm_num)

/-- C5: the persisted rewrite is not atomic and not even always performed.
_save_orders truncates the document in place (`open(path, "w")` then
`json.dump`), so a crash between truncation and write exposes an empty
document - a state an atomic temp-file-plus-rename rewrite never exposes -
and the step list differs from the atomic one; moreover the halt mutation
of check_and_trade (stop-loss path) returns without any save at all. -/
theorem c5_save_not_atomic_halt_unsaved :
    Disk.mk (some "") none ∈
      crashStates ⟨some "prev", none⟩ (saveOrdersSteps "doc") ∧
    (∀ d ∈ crashStates ⟨some "prev", none⟩ (atomicSaveSteps "doc"),
      d.main ≠ some "") ∧
    saveOrdersSteps "doc" ≠ atomicSaveSteps "doc" ∧
    (checkAndTrade sampleEnv 2700 twoStopLossState).2.state.is_halted = true ∧
    twoStopLossState.is_halted = false ∧
    (checkAndTrade sampleEnv 2700 twoStopLossState).2.savedDocs = [] := by
  have hsave : crashStates ⟨some "prev", none⟩ (saveOrdersSteps "doc") =
      [⟨some "prev", none⟩, ⟨some "", none⟩, ⟨some "doc", none⟩] := rfl
  have hatomic : crashStates ⟨some "prev", none⟩ (atomicSaveSteps "doc") =
      [⟨some "prev", none⟩, ⟨some "prev", some "doc"⟩, ⟨some "doc", none⟩] := rfl
  have htick : checkAndTrade sampleEnv 2700 twoStopLossState =
      (⟨.stopLoss, false⟩, ⟨false,
        { twoStopLossState with consecutive_stop_loss_count := 3,
                                is_halted := true,
                                halt_reason := haltReasonMsg }, []⟩) := by
    rw [checkAndTrade]
    rw [if_neg (by simp [twoStopLossState]), if_neg (by simp [sampleEnv]),
      if_pos (by norm_num [twoStopLossState])]
    simp [twoStopLossState]
  refine ⟨?_, ?_, ?_, ?_, rfl, ?_⟩
  · rw [hsave]
    simp
  · rw [hatomic]
    intro d hd
    simp only [List.mem_cons, List.not_mem_nil, or_false] at hd
    rcases hd with h | h | h <;> subst h <;> simp
  · simp [saveOrdersSteps, atomicSaveSteps]
  · rw [htick]
  · rw [htick]

end GridBot
